import Mathlib

/-!
Verification of the TOFPA plugin core (surface construction, obstacle
evaluation, shadow analysis) against its natural-language specification.

The embedding follows the Python source:
  * `src/tofpa.py`            — `TOFPA.create_tofpa_surface`, the in-plugin
                                obstacle/shadow pipeline (`_analyze_single_obstacle`,
                                `process_survey_obstacles`, `_perform_shadow_analysis`,
                                `_get_takeoff_reference_point`, `_is_obstacle_shadowed`,
                                `_check_elevation_shadow`, `_apply_shadow_results`);
  * `src/core/obstacles.py`   — the extracted `ObstacleAnalyzer` pipeline.

Floating-point numbers are idealised as real numbers.  The planar geometry
primitives of `QgsPoint` (`project`, `azimuth`, `distance`) are translated
directly: `azimuth` is `atan2(dx, dy)` in degrees, rendered here through
`Complex.arg` (`arg (x + y*I) = atan2 y x`); `project` moves by
`d * sin θ, d * cos θ` in the plane and keeps `z`; `distance` is the planar
(2-D) Euclidean distance.  External GEOS predicates (buffer construction,
polygon intersection, centroid) are parameters of the obstacle evaluator,
matching the spec's list of external collaborator interfaces.
-/

open Classical

/-- A 3-D point, mirroring `QgsPoint` with x, y and z set. -/
structure Point3 where
  x : ℝ
  y : ℝ
  z : ℝ

/-- `QgsPoint.azimuth`: compass bearing in degrees, `atan2(dx, dy) * 180 / π`,
expressed via `Complex.arg` (`arg (re + im*I) = atan2 im re`). -/
noncomputable def Point3.azimuth (a b : Point3) : ℝ :=
  Complex.arg ⟨b.y - a.y, b.x - a.x⟩ * 180 / Real.pi

/-- `QgsPoint.distance`: planar (2-D) Euclidean distance, z ignored. -/
noncomputable def Point3.distance (a b : Point3) : ℝ :=
  Real.sqrt ((b.x - a.x) ^ 2 + (b.y - a.y) ^ 2)

/-- `QgsPoint.project(distance, azimuth)`: move `d` metres along compass
bearing `θ` (degrees) in the plane; the z value is carried over. -/
noncomputable def Point3.project (p : Point3) (d θ : ℝ) : Point3 :=
  ⟨p.x + d * Real.sin (θ * Real.pi / 180),
   p.y + d * Real.cos (θ * Real.pi / 180),
   p.z⟩

/-- Midpoint of two 3-D points (in x, y and z). -/
noncomputable def midpoint3 (a b : Point3) : Point3 :=
  ⟨(a.x + b.x) / 2, (a.y + b.y) / 2, (a.z + b.z) / 2⟩

/-- Vector-feature geometry.  Obstacle layers are restricted by the UI
(`tofpa_dockwidget.py`) to point or polygon layers; a missing geometry and an
empty one (`not geom or geom.isEmpty()`) are both modelled as `empty`.
A polygon carries its exterior ring, closing vertex included, as returned by
`QgsGeometry.asPolygon()[0]`. -/
inductive Geometry where
  | empty : Geometry
  | point (p : Point3) : Geometry
  | polygon (ring : List Point3) : Geometry

/-- A feature attribute value (`QgsFeature.attribute`): NULL, numeric
(int or float) or text.  Only int and float pass the
`isinstance(height_value, (int, float))` test in the source. -/
inductive AttrValue where
  | null : AttrValue
  | intV (n : ℤ) : AttrValue
  | doubleV (v : ℝ) : AttrValue
  | strV (s : String) : AttrValue

/-- A vector feature: id, geometry and named attributes. -/
structure Feature where
  fid : ℤ
  geometry : Geometry
  attrs : List (String × AttrValue)

/-- `feature.attribute(name)`: a missing attribute reads as NULL. -/
def Feature.attribute (f : Feature) (name : String) : AttrValue :=
  (f.attrs.lookup name).getD AttrValue.null

/-- The per-obstacle result dict of `_analyze_single_obstacle` /
`ObstacleAnalyzer.analyze_single`. -/
structure ObstacleInfo where
  isCritical : Bool
  height : ℝ
  intersectionType : String
  obstaclePoint : Point3

/-- An attribute row written to one of the obstacle point layers
(`id, height, buffer_m, status, intersection, shadow_status, shadowed_by`). -/
structure ObstacleRow where
  fid : ℤ
  height : ℝ
  bufferM : ℝ
  status : String
  intersection : String
  shadowStatus : String
  shadowedBy : String

/-- An attribute row written to the buffer polygon layer
(`obstacle_id, buffer_m, status`). -/
structure BufferRow where
  fid : ℤ
  bufferM : ℝ
  status : String

/-- One entry of the `obstacles_data` list built by
`process_survey_obstacles`.  The Python dict initially has no
`shadow_status` / `shadowed_by` keys; the shadow analysis adds them, hence
the `Option` fields (`none` = key absent). -/
structure ObstacleData where
  feature : Feature
  info : ObstacleInfo
  point : Point3
  height : ℝ
  isCritical : Bool
  shadowStatus : Option String
  shadowedBy : Option String

/-- Result dict of the shadow analysis (`shadowed_obstacles`,
`visible_obstacles`, and `takeoff_point` when one was derived). -/
structure ShadowResults where
  shadowedObstacles : List ObstacleData
  visibleObstacles : List ObstacleData
  takeoffPoint : Option Point3

/-- All points computed by `TOFPA.create_tofpa_surface`, plus the surface
ring (closing vertex included) and the 3000 m reference line endpoints. -/
structure SurfaceResult where
  azimuth : ℝ
  pt0D : Point3
  pt01D : Point3
  pt01DL : Point3
  pt01DR : Point3
  pt02D : Point3
  pt02DL : Point3
  pt02DR : Point3
  pt03D : Point3
  pt03DL : Point3
  pt03DR : Point3
  ring : List Point3
  refLineLeft : Point3
  refLineRight : Point3

/-- Total length of a polyline (`QgsGeometry.length()` on a line). -/
noncomputable def polylineLength : List Point3 → ℝ
  | [] => 0
  | [_] => 0
  | a :: b :: rest => Point3.distance a b + polylineLength (b :: rest)

namespace TOFPA

/-- `TOFPA.create_tofpa_surface` (src/tofpa.py lines 196-355), geometry part.
Returns `none` when the runway polyline has fewer than 2 vertices (the source
shows an error and returns `False`).  `s = 0` means takeoff from start to
end of the digitised line, otherwise (`s = -1`) from end to start.  The
threshold feature's point is given z value `z0`; `pt_01D`'s elevation is then
forced to `ze`. -/
noncomputable def create_tofpa_surface (width_tofpa max_width_tofpa cwy_length z0 ze : ℝ)
    (s : ℤ) (runway : List Point3) (threshold : Point3) : Option SurfaceResult :=
  match runway with
  | [] => none
  | [_] => none
  | p0 :: p1 :: rest =>
    let rwyLength := polylineLength (p0 :: p1 :: rest)
    let _rwySlope := if 0 < rwyLength then (z0 - ze) / rwyLength else 0
    let firstPt := p0
    let lastPt := (p0 :: p1 :: rest).getLast (List.cons_ne_nil _ _)
    let startPoint := if s = 0 then firstPt else lastPt
    let endPoint := if s = 0 then lastPt else firstPt
    let azimuth := Point3.azimuth startPoint endPoint
    let newGeom : Point3 := ⟨threshold.x, threshold.y, z0⟩
    let pt0D := newGeom
    let dD := if cwy_length = 0 then 0 else cwy_length
    let pt01D : Point3 := { pt0D.project dD azimuth with z := ze }
    let pt01DL := pt01D.project (width_tofpa / 2) (azimuth + 90)
    let pt01DR := pt01D.project (width_tofpa / 2) (azimuth - 90)
    let pt02D : Point3 :=
      { pt01D.project ((max_width_tofpa / 2 - width_tofpa / 2) / 0.125) azimuth with
        z := ze + ((max_width_tofpa / 2 - width_tofpa / 2) / 0.125) * 0.012 }
    let pt02DL := pt02D.project (max_width_tofpa / 2) (azimuth + 90)
    let pt02DR := pt02D.project (max_width_tofpa / 2) (azimuth - 90)
    let pt03D : Point3 := { pt01D.project 10000 azimuth with z := ze + 10000 * 0.012 }
    let pt03DL := pt03D.project (max_width_tofpa / 2) (azimuth + 90)
    let pt03DR := pt03D.project (max_width_tofpa / 2) (azimuth - 90)
    let refLineLeft : Point3 := { pt01D.project 3000 (azimuth + 90) with z := pt01D.z }
    let refLineRight : Point3 := { pt01D.project 3000 (azimuth - 90) with z := pt01D.z }
    some
      { azimuth := azimuth
        pt0D := pt0D
        pt01D := pt01D
        pt01DL := pt01DL
        pt01DR := pt01DR
        pt02D := pt02D
        pt02DL := pt02DL
        pt02DR := pt02DR
        pt03D := pt03D
        pt03DL := pt03DL
        pt03DR := pt03DR
        ring := [pt03DR, pt03DL, pt02DL, pt01DL, pt01DR, pt02DR, pt03DR]
        refLineLeft := refLineLeft
        refLineRight := refLineRight }

/-- Result of a single obstacle analysis: the returned info dict plus the
rows the source appends to the critical/safe point layer and to the buffer
layer. -/
structure SingleResult where
  info : ObstacleInfo
  obstacleRow : ObstacleRow
  bufferRow : BufferRow

/-- `TOFPA._analyze_single_obstacle` (src/tofpa.py lines 561-636) =
`ObstacleAnalyzer.analyze_single` (src/core/obstacles.py lines 96-176).

`centroid` models the external `QgsGeometry.centroid()` of a polygon and
`bufferIntersects x y d g` models
`QgsGeometry.fromPointXY(⟨x,y⟩).buffer(d, 16).intersects(g)`; both are
geometric predicates the spec assigns to the external feature store.
Raising `Exception("Invalid geometry")` / `ValueError("Invalid geometry")`
is modelled as `Except.error`. -/
noncomputable def analyze_single_obstacle
    (centroid : List Point3 → Point3)
    (bufferIntersects : ℝ → ℝ → ℝ → Geometry → Bool)
    (feature : Feature) (height_field : Option String)
    (buffer_distance min_height : ℝ)
    (tofpa_surface_layer : List Geometry) : Except String SingleResult :=
  match feature.geometry with
  | Geometry.empty => Except.error "Invalid geometry"
  | geom =>
    let obstacle_height : ℝ :=
      match height_field with
      | none => min_height
      | some hf =>
        match feature.attribute hf with
        | AttrValue.intV n => max (n : ℝ) min_height
        | AttrValue.doubleV v => max v min_height
        | _ => min_height
    let obstacle_point : Point3 :=
      match geom with
      | Geometry.polygon ring => ⟨(centroid ring).x, (centroid ring).y, obstacle_height⟩
      | Geometry.point p => ⟨p.x, p.y, obstacle_height⟩
      | Geometry.empty => ⟨0, 0, obstacle_height⟩  -- unreachable: handled above
    let is_critical : Bool := tofpa_surface_layer.any
      (fun g => bufferIntersects obstacle_point.x obstacle_point.y buffer_distance g)
    let intersection_type : String :=
      if is_critical then "Buffer intersects TOFPA surface" else "None"
    Except.ok
      { info :=
          { isCritical := is_critical
            height := obstacle_height
            intersectionType := intersection_type
            obstaclePoint := obstacle_point }
        obstacleRow :=
          { fid := feature.fid
            height := obstacle_height
            bufferM := buffer_distance
            status := if is_critical then "CRITICAL" else "SAFE"
            intersection := intersection_type
            shadowStatus := ""
            shadowedBy := "" }
        bufferRow :=
          { fid := feature.fid
            bufferM := buffer_distance
            status := if is_critical then "CRITICAL" else "SAFE" } }

/-- The per-run outputs accumulated by `process_survey_obstacles`: the
`obstacles_data` list, the obstacle counts, and the rows added to the
critical, safe and buffer layers. -/
structure BatchResult where
  data : List ObstacleData
  total : ℕ
  critical : ℕ
  criticalRows : List ObstacleRow
  safeRows : List ObstacleRow
  bufferRows : List BufferRow

/-- The `obstacles_data` entry appended for a successfully analysed
feature. -/
def mkObstacleData (f : Feature) (r : SingleResult) : ObstacleData :=
  { feature := f
    info := r.info
    point := r.info.obstaclePoint
    height := r.info.height
    isCritical := r.info.isCritical
    shadowStatus := none
    shadowedBy := none }

/-- The per-feature loop of `TOFPA.process_survey_obstacles`
(src/tofpa.py lines 471-492): a feature whose analysis raises is logged and
skipped (`continue`); a successful analysis bumps the counters, routes its
row to the critical or safe layer, and appends to `obstacles_data`. -/
noncomputable def process_survey_obstacles
    (centroid : List Point3 → Point3)
    (bufferIntersects : ℝ → ℝ → ℝ → Geometry → Bool)
    (features : List Feature) (height_field : Option String)
    (buffer_distance min_height : ℝ)
    (tofpa_surface_layer : List Geometry) : BatchResult :=
  match features with
  | [] => ⟨[], 0, 0, [], [], []⟩
  | f :: rest =>
    let tail := process_survey_obstacles centroid bufferIntersects rest height_field
      buffer_distance min_height tofpa_surface_layer
    match analyze_single_obstacle centroid bufferIntersects f height_field
      buffer_distance min_height tofpa_surface_layer with
    | Except.error _ => tail
    | Except.ok r =>
      { data := mkObstacleData f r :: tail.data
        total := tail.total + 1
        critical := (if r.info.isCritical then 1 else 0) + tail.critical
        criticalRows := if r.info.isCritical then r.obstacleRow :: tail.criticalRows
                        else tail.criticalRows
        safeRows := if r.info.isCritical then tail.safeRows
                    else r.obstacleRow :: tail.safeRows
        bufferRows := r.bufferRow :: tail.bufferRows }

/-- `TOFPA._calculate_bearing` (src/tofpa.py lines 759-767) =
`ObstacleAnalyzer.calculate_bearing`: `QgsPoint.azimuth`; the `atan2`
fallback only runs when `azimuth` raises, which the model's total `azimuth`
never does. -/
noncomputable def calculate_bearing (from_point to_point : Point3) : ℝ :=
  Point3.azimuth from_point to_point

/-- `TOFPA._check_elevation_shadow` (src/tofpa.py lines 769-794) =
`ObstacleAnalyzer.check_elevation_shadow`: the shadow candidate blocks the
line of sight when its elevation angle from the takeoff point strictly
exceeds the target's; degenerate (non-positive) horizontal distances yield
`False`.  The takeoff point is always 3-D here, so `takeoff_point.z` is
used directly. -/
noncomputable def check_elevation_shadow (takeoff_point target_point : Point3)
    (target_height : ℝ) (shadow_point : Point3) (shadow_height : ℝ) : Prop :=
  let target_distance := Point3.distance takeoff_point target_point
  let shadow_distance := Point3.distance takeoff_point shadow_point
  if target_distance ≤ 0 ∨ shadow_distance ≤ 0 then False
  else
    Real.arctan ((target_height - takeoff_point.z) / target_distance) * 180 / Real.pi <
      Real.arctan ((shadow_height - takeoff_point.z) / shadow_distance) * 180 / Real.pi

/-- The scan loop of `_is_obstacle_shadowed` over `all_obstacles`, with the
target's precomputed distance and bearing threaded through.  Each `continue`
of the source is a recursive call on the remaining records. -/
noncomputable def shadow_scan (takeoff_point : Point3) (shadow_tolerance : ℝ)
    (target : ObstacleData) (target_distance target_angle : ℝ) :
    List ObstacleData → Option ObstacleData
  | [] => none
  | other :: rest =>
    if other.feature.fid = target.feature.fid then
      shadow_scan takeoff_point shadow_tolerance target target_distance target_angle rest
    else if target_distance ≤ Point3.distance takeoff_point other.point then
      shadow_scan takeoff_point shadow_tolerance target target_distance target_angle rest
    else if other.height ≤ target.height then
      shadow_scan takeoff_point shadow_tolerance target target_distance target_angle rest
    else
      let other_angle := calculate_bearing takeoff_point other.point
      let raw_diff := |target_angle - other_angle|
      let angular_difference := if 180 < raw_diff then 360 - raw_diff else raw_diff
      if angular_difference ≤ shadow_tolerance then
        if check_elevation_shadow takeoff_point target.point target.height
            other.point other.height then
          some other
        else
          shadow_scan takeoff_point shadow_tolerance target target_distance target_angle rest
      else
        shadow_scan takeoff_point shadow_tolerance target target_distance target_angle rest

/-- `TOFPA._is_obstacle_shadowed` (src/tofpa.py lines 710-757) =
`ObstacleAnalyzer.is_obstacle_shadowed` (src/core/obstacles.py lines
257-295).  The source's `(True, other)` / `(False, None)` pair is modelled
as `some other` / `none`. -/
noncomputable def is_obstacle_shadowed (target_obstacle : ObstacleData)
    (all_obstacles : List ObstacleData) (takeoff_point : Point3)
    (shadow_tolerance : ℝ) : Option ObstacleData :=
  shadow_scan takeoff_point shadow_tolerance target_obstacle
    (Point3.distance takeoff_point target_obstacle.point)
    (calculate_bearing takeoff_point target_obstacle.point)
    all_obstacles

/-- `TOFPA._get_takeoff_reference_point` (src/tofpa.py lines 687-708): scan
the layer for the first polygon feature whose exterior ring (closing vertex
included) has at least 4 vertices, and average its vertices `[0]` and
`[-2]`.  Surface layers are PolygonZ, so the `is3D` branch always takes the
z average. -/
noncomputable def get_takeoff_reference_point : List Geometry → Option Point3
  | [] => none
  | Geometry.polygon vertices :: rest =>
    if 4 ≤ vertices.length then
      let p1 := vertices.getD 0 ⟨0, 0, 0⟩
      let p2 := vertices.getD (vertices.length - 2) ⟨0, 0, 0⟩
      some ⟨(p1.x + p2.x) / 2, (p1.y + p2.y) / 2, (p1.z + p2.z) / 2⟩
    else
      get_takeoff_reference_point rest
  | _ :: rest => get_takeoff_reference_point rest

/-- The loop of `_perform_shadow_analysis` over the critical obstacles:
each target is checked against the full critical list and routed, with its
`shadow_status` / `shadowed_by` keys set, to the shadowed or visible list. -/
noncomputable def shadow_partition (critical_obstacles : List ObstacleData)
    (takeoff_point : Point3) (shadow_tolerance : ℝ) :
    List ObstacleData → List ObstacleData × List ObstacleData
  | [] => ([], [])
  | target :: rest =>
    let tail := shadow_partition critical_obstacles takeoff_point shadow_tolerance rest
    match is_obstacle_shadowed target critical_obstacles takeoff_point shadow_tolerance with
    | some shadowing =>
      ({ target with
          shadowStatus := some "SHADOWED"
          shadowedBy := some ("Obstacle ID " ++ toString shadowing.feature.fid) } :: tail.1,
       tail.2)
    | none =>
      (tail.1,
       { target with shadowStatus := some "VISIBLE", shadowedBy := some "" } :: tail.2)

/-- `TOFPA._perform_shadow_analysis` (src/tofpa.py lines 638-685).  When no
takeoff reference point can be derived the analysis degenerates:
`{'shadowed_obstacles': [], 'visible_obstacles': obstacles_data}` with no
record touched.  Otherwise critical records are partitioned and non-critical
records are appended to the visible list tagged `NOT_APPLICABLE`. -/
noncomputable def perform_shadow_analysis (obstacles_data : List ObstacleData)
    (tofpa_surface_layer : List Geometry) (shadow_tolerance : ℝ) : ShadowResults :=
  match get_takeoff_reference_point tofpa_surface_layer with
  | none => ⟨[], obstacles_data, none⟩
  | some takeoff_point =>
    let critical_obstacles := obstacles_data.filter (fun o => o.isCritical)
    let parts := shadow_partition critical_obstacles takeoff_point shadow_tolerance
      critical_obstacles
    let non_critical := (obstacles_data.filter (fun o => !o.isCritical)).map
      (fun o => { o with shadowStatus := some "NOT_APPLICABLE", shadowedBy := some "" })
    ⟨parts.1, parts.2 ++ non_critical, some takeoff_point⟩

/-- `TOFPA._apply_shadow_results` (src/tofpa.py lines 796-843): rows added
to the shadowed and visible layers.  The buffer attribute is the hardcoded
literal `10.0`; the shadowed loop reads `obstacle['shadow_status']` directly
(always present there) while the visible loop uses
`.get('shadow_status', 'VISIBLE')` / `.get('shadowed_by', '')`. -/
noncomputable def apply_shadow_results (shadow_results : ShadowResults) :
    List ObstacleRow × List ObstacleRow :=
  ((shadow_results.shadowedObstacles.filter (fun o => o.isCritical)).map
      (fun o =>
        { fid := o.feature.fid
          height := o.height
          bufferM := 10.0
          status := "CRITICAL"
          intersection := o.info.intersectionType
          shadowStatus := o.shadowStatus.getD ""
          shadowedBy := o.shadowedBy.getD "" }),
   (shadow_results.visibleObstacles.filter (fun o => o.isCritical)).map
      (fun o =>
        { fid := o.feature.fid
          height := o.height
          bufferM := 10.0
          status := "CRITICAL"
          intersection := o.info.intersectionType
          shadowStatus := o.shadowStatus.getD "VISIBLE"
          shadowedBy := o.shadowedBy.getD "" }))

end TOFPA

namespace ObstacleAnalyzer

/-- `ObstacleAnalyzer.get_takeoff_reference_point` (src/core/obstacles.py
lines 231-255): the first polygon feature with a ring of at least 6 vertices
yields the midpoint of vertices `[3]` (`pt_01DL`) and `[4]` (`pt_01DR`) —
the DER near edge (the source marks this as the BUG-04 fix). -/
noncomputable def get_takeoff_reference_point : List Geometry → Option Point3
  | [] => none
  | Geometry.polygon vertices :: rest =>
    if 6 ≤ vertices.length then
      let p1 := vertices.getD 3 ⟨0, 0, 0⟩
      let p2 := vertices.getD 4 ⟨0, 0, 0⟩
      some ⟨(p1.x + p2.x) / 2, (p1.y + p2.y) / 2, (p1.z + p2.z) / 2⟩
    else
      get_takeoff_reference_point rest
  | _ :: rest => get_takeoff_reference_point rest

/-- `ObstacleAnalyzer.apply_shadow_results` (src/core/obstacles.py lines
333-376): identical to the in-plugin version except that the row's buffer
attribute is the caller-supplied `buffer_distance` (the BUG-02 fix), not the
literal `10.0`. -/
noncomputable def apply_shadow_results (shadow_results : ShadowResults)
    (buffer_distance : ℝ) : List ObstacleRow × List ObstacleRow :=
  ((shadow_results.shadowedObstacles.filter (fun o => o.isCritical)).map
      (fun o =>
        { fid := o.feature.fid
          height := o.height
          bufferM := buffer_distance
          status := "CRITICAL"
          intersection := o.info.intersectionType
          shadowStatus := o.shadowStatus.getD ""
          shadowedBy := o.shadowedBy.getD "" }),
   (shadow_results.visibleObstacles.filter (fun o => o.isCritical)).map
      (fun o =>
        { fid := o.feature.fid
          height := o.height
          bufferM := buffer_distance
          status := "CRITICAL"
          intersection := o.info.intersectionType
          shadowStatus := o.shadowStatus.getD "VISIBLE"
          shadowedBy := o.shadowedBy.getD "" }))

end ObstacleAnalyzer

/-- The TOFPA parameter record (cf. `TofpaParams` in src/core/models.py):
the six surface-geometry scalars plus the runway/threshold layer
references. -/
structure TofpaParams where
  width_tofpa : ℝ
  max_width_tofpa : ℝ
  cwy_length : ℝ
  z0 : ℝ
  ze : ℝ
  s : ℤ
  runwayLayerId : Option String
  thresholdLayerId : Option String

/-- Modelled from the spec: the Parameter Validator
(`validate_parameters(params) -> list[str]`, spec §4.5/§6) is not present
under src/ — `create_tofpa_surface` performs no scalar validation.  Per the
spec it returns one human-readable message per violation:
`width_tofpa <= 0`, `max_width_tofpa < width_tofpa`,
`max_width_tofpa == width_tofpa` ("no divergence", still fatal), and a
missing runway or threshold layer reference. -/
noncomputable def validate_parameters (p : TofpaParams) : List String :=
  (if p.width_tofpa ≤ 0 then ["width_tofpa must be greater than 0"] else []) ++
  (if p.max_width_tofpa < p.width_tofpa then
    ["max_width_tofpa must not be smaller than width_tofpa"] else []) ++
  (if p.max_width_tofpa = p.width_tofpa then
    ["max_width_tofpa equals width_tofpa: no divergence"] else []) ++
  (if p.runwayLayerId.isNone then ["runway layer reference is missing"] else []) ++
  (if p.thresholdLayerId.isNone then ["threshold layer reference is missing"] else [])

/-- Modelled from the spec: "Validator gates → Surface Builder" — the
calculation is blocked (no surface geometry work happens) while the
violation list is non-empty. -/
noncomputable def gated_create_tofpa_surface (p : TofpaParams)
    (runway : List Point3) (threshold : Point3) : Option SurfaceResult :=
  if validate_parameters p = [] then
    TOFPA.create_tofpa_surface p.width_tofpa p.max_width_tofpa p.cwy_length
      p.z0 p.ze p.s runway threshold
  else none

/-!  Claim-side (specification) predicates, written from the claims'
wording, to be compared with the source translations above.  -/

/-- The shadow condition of claim C2, as the claim words it: a different
feature id, strictly smaller distance to the takeoff point, strictly
greater height, angular difference of bearings wrapped as
`min (|a-b|) (360-|a-b|)` at most the tolerance, and a strictly greater
elevation angle from the takeoff point (the source's elevation-angle
comparison `check_elevation_shadow`). -/
noncomputable def specShadowCond (takeoff_point : Point3) (tolerance : ℝ)
    (target other : ObstacleData) : Prop :=
  other.feature.fid ≠ target.feature.fid ∧
  Point3.distance takeoff_point other.point <
    Point3.distance takeoff_point target.point ∧
  target.height < other.height ∧
  min |Point3.azimuth takeoff_point target.point -
        Point3.azimuth takeoff_point other.point|
      (360 - |Point3.azimuth takeoff_point target.point -
        Point3.azimuth takeoff_point other.point|) ≤ tolerance ∧
  TOFPA.check_elevation_shadow takeoff_point target.point target.height
    other.point other.height

/-- The angular wrap used by the source (`if diff > 180: diff = 360 - diff`)
agrees with the spec's `min(|a-b|, 360-|a-b|)` form for every real value. -/
theorem wrap_eq_min (d : ℝ) : (if 180 < d then 360 - d else d) = min d (360 - d) := by
  split
  · rw [min_eq_right]; linarith
  · rw [min_eq_left]; linarith

/-- Planar distance between two points that share an x coordinate. -/
theorem distance_same_x (x y1 z1 y2 z2 : ℝ) :
    Point3.distance ⟨x, y1, z1⟩ ⟨x, y2, z2⟩ = |y2 - y1| := by
  unfold Point3.distance
  rw [show (x - x) ^ 2 + (y2 - y1) ^ 2 = (y2 - y1) ^ 2 by ring, Real.sqrt_sq_eq_abs]

/-- Projecting by `d` moves the point exactly `|d|` metres in the plane. -/
theorem distance_project (p : Point3) (d θ : ℝ) :
    Point3.distance p (p.project d θ) = |d| := by
  unfold Point3.distance Point3.project
  rw [show (p.x + d * Real.sin (θ * Real.pi / 180) - p.x) ^ 2 +
        (p.y + d * Real.cos (θ * Real.pi / 180) - p.y) ^ 2 =
      d ^ 2 * (Real.sin (θ * Real.pi / 180) ^ 2 + Real.cos (θ * Real.pi / 180) ^ 2) by
        ring]
  rw [Real.sin_sq_add_cos_sq, mul_one, Real.sqrt_sq_eq_abs]

/-- The bearing toward a point due north (same x, larger y) is 0 degrees. -/
theorem azimuth_north (x y1 z1 y2 z2 : ℝ) (h : y1 ≤ y2) :
    Point3.azimuth ⟨x, y1, z1⟩ ⟨x, y2, z2⟩ = 0 := by
  unfold Point3.azimuth
  rw [show Complex.arg ⟨y2 - y1, x - x⟩ = 0 from
    Complex.arg_eq_zero_iff.mpr ⟨by simpa using sub_nonneg.mpr h, by simp⟩]
  simp

/-- Projection at bearing 0 moves due north. -/
theorem project_bearing_zero (p : Point3) (d : ℝ) :
    p.project d 0 = ⟨p.x, p.y + d, p.z⟩ := by
  unfold Point3.project
  rw [show (0 : ℝ) * Real.pi / 180 = 0 by ring]
  simp

/-- Projection at bearing 90 moves due east. -/
theorem project_bearing_east (p : Point3) (d : ℝ) :
    p.project d 90 = ⟨p.x + d, p.y, p.z⟩ := by
  unfold Point3.project
  rw [show (90 : ℝ) * Real.pi / 180 = Real.pi / 2 by ring]
  simp

/-- Projection at bearing `-90` moves due west. -/
theorem project_bearing_west (p : Point3) (d : ℝ) :
    p.project d (-90) = ⟨p.x - d, p.y, p.z⟩ := by
  unfold Point3.project
  rw [show (-90 : ℝ) * Real.pi / 180 = -(Real.pi / 2) by ring]
  simp [sub_eq_add_neg]

/-- One step of the `_is_obstacle_shadowed` scan: the head record is the
designated shadower exactly when it satisfies the claim-side shadow
condition; otherwise the scan continues on the remaining records. -/
theorem is_obstacle_shadowed_cons (tk : Point3) (tol : ℝ) (t o : ObstacleData)
    (rest : List ObstacleData) :
    TOFPA.is_obstacle_shadowed t (o :: rest) tk tol =
      if specShadowCond tk tol t o then some o
      else TOFPA.is_obstacle_shadowed t rest tk tol := by
  simp only [TOFPA.is_obstacle_shadowed, TOFPA.shadow_scan, TOFPA.calculate_bearing]
  rw [wrap_eq_min]
  by_cases h1 : o.feature.fid = t.feature.fid
  · rw [if_pos h1, if_neg (fun hc => hc.1 h1)]
  rw [if_neg h1]
  by_cases h2 : Point3.distance tk t.point ≤ Point3.distance tk o.point
  · rw [if_pos h2, if_neg (fun hc => absurd hc.2.1 (not_lt.mpr h2))]
  rw [if_neg h2]
  by_cases h3 : o.height ≤ t.height
  · rw [if_pos h3, if_neg (fun hc => absurd hc.2.2.1 (not_lt.mpr h3))]
  rw [if_neg h3]
  by_cases h4 : min |Point3.azimuth tk t.point - Point3.azimuth tk o.point|
      (360 - |Point3.azimuth tk t.point - Point3.azimuth tk o.point|) ≤ tol
  · rw [if_pos h4]
    by_cases h5 : TOFPA.check_elevation_shadow tk t.point t.height o.point o.height
    · rw [if_pos h5, if_pos ⟨h1, not_le.mp h2, not_le.mp h3, h4, h5⟩]
    · rw [if_neg h5, if_neg (fun hc => h5 hc.2.2.2.2)]
  · rw [if_neg h4, if_neg (fun hc => h4 hc.2.2.2.1)]

/-- Scanning an empty record list finds no shadower. -/
theorem is_obstacle_shadowed_nil (tk : Point3) (tol : ℝ) (t : ObstacleData) :
    TOFPA.is_obstacle_shadowed t [] tk tol = none := rfl

/-- Full characterization of `_is_obstacle_shadowed`: a shadower exists
exactly when some record satisfies the claim-side condition, and the
returned shadower is the first such record in input order. -/
theorem is_obstacle_shadowed_spec (tk : Point3) (tol : ℝ) (t : ObstacleData) :
    ∀ obs : List ObstacleData,
      ((TOFPA.is_obstacle_shadowed t obs tk tol).isSome ↔
        ∃ o ∈ obs, specShadowCond tk tol t o) ∧
      (∀ o, TOFPA.is_obstacle_shadowed t obs tk tol = some o →
        specShadowCond tk tol t o ∧
          ∃ l1 l2, obs = l1 ++ o :: l2 ∧ ∀ u ∈ l1, ¬ specShadowCond tk tol t u)
  | [] => by
    simp [is_obstacle_shadowed_nil]
  | o :: rest => by
    obtain ⟨ih1, ih2⟩ := is_obstacle_shadowed_spec tk tol t rest
    rw [is_obstacle_shadowed_cons]
    by_cases h : specShadowCond tk tol t o
    · rw [if_pos h]
      refine ⟨iff_of_true (by simp) ⟨o, List.mem_cons_self o rest, h⟩, ?_⟩
      rintro o' ho'
      obtain rfl : o = o' := by simpa using ho'
      exact ⟨h, [], rest, rfl, by simp⟩
    · rw [if_neg h]
      constructor
      · rw [ih1]
        constructor
        · rintro ⟨u, hu, hcond⟩
          exact ⟨u, List.mem_cons_of_mem _ hu, hcond⟩
        · rintro ⟨u, hu, hcond⟩
          rcases List.mem_cons.mp hu with rfl | hu'
          · exact absurd hcond h
          · exact ⟨u, hu', hcond⟩
      · intro o' ho'
        obtain ⟨hcond, l1, l2, hsplit, hfirst⟩ := ih2 o' ho'
        refine ⟨hcond, o :: l1, l2, by rw [hsplit]; rfl, ?_⟩
        intro u hu
        rcases List.mem_cons.mp hu with rfl | hu'
        · exact h
        · exact hfirst u hu'

/-- The designated shadower is always strictly closer to the takeoff point
than its target. -/
theorem is_obstacle_shadowed_closer (tk : Point3) (tol : ℝ) (t o : ObstacleData)
    (obs : List ObstacleData)
    (h : TOFPA.is_obstacle_shadowed t obs tk tol = some o) :
    Point3.distance tk o.point < Point3.distance tk t.point :=
  ((is_obstacle_shadowed_spec tk tol t obs).2 o h).1.2.1

/-- The spec's concrete scenario: runway centerline `[(0,0), (0,1000)]`,
direction START_TO_END (`s = 0`), threshold `(0,0)`. -/
def scenarioRunway : List Point3 := [⟨0, 0, 0⟩, ⟨0, 1000, 0⟩]

/-- The expected surface of the spec's concrete scenario
(`z0 = 100, ze = 90, width = 180, max width = 1800, cwy = 0`). -/
noncomputable def scenarioSurface : SurfaceResult :=
  { azimuth := 0
    pt0D := ⟨0, 0, 100⟩
    pt01D := ⟨0, 0, 90⟩
    pt01DL := ⟨90, 0, 90⟩
    pt01DR := ⟨-90, 0, 90⟩
    pt02D := ⟨0, 6480, 167.76⟩
    pt02DL := ⟨900, 6480, 167.76⟩
    pt02DR := ⟨-900, 6480, 167.76⟩
    pt03D := ⟨0, 10000, 210⟩
    pt03DL := ⟨900, 10000, 210⟩
    pt03DR := ⟨-900, 10000, 210⟩
    ring := [⟨-900, 10000, 210⟩, ⟨900, 10000, 210⟩, ⟨900, 6480, 167.76⟩,
             ⟨90, 0, 90⟩, ⟨-90, 0, 90⟩, ⟨-900, 6480, 167.76⟩, ⟨-900, 10000, 210⟩]
    refLineLeft := ⟨3000, 0, 90⟩
    refLineRight := ⟨-3000, 0, 90⟩ }

/-- Evaluating the surface builder on the spec's concrete scenario. -/
theorem scenario_surface_eq :
    TOFPA.create_tofpa_surface 180 1800 0 100 90 0 scenarioRunway ⟨0, 0, 0⟩ =
      some scenarioSurface := by
  have haz : Point3.azimuth ⟨0, 0, 0⟩ ⟨0, 1000, 0⟩ = 0 :=
    azimuth_north 0 0 0 1000 0 (by norm_num)
  simp only [scenarioRunway, TOFPA.create_tofpa_surface, List.getLast]
  norm_num [haz, project_bearing_zero, project_bearing_east, project_bearing_west,
    scenarioSurface, Point3.mk.injEq, SurfaceResult.mk.injEq]

/-- Takeoff reference point used by the concrete shadow examples. -/
def takeoffW : Point3 := ⟨0, 0, 0⟩

/-- A critical obstacle 200 m due north of the takeoff point, 10 m tall. -/
def obsFar : ObstacleData :=
  { feature := ⟨1, Geometry.point ⟨0, 200, 10⟩, []⟩
    info := ⟨true, 10, "Buffer intersects TOFPA surface", ⟨0, 200, 10⟩⟩
    point := ⟨0, 200, 10⟩
    height := 10
    isCritical := true
    shadowStatus := none
    shadowedBy := none }

/-- A critical obstacle 100 m due north of the takeoff point, 50 m tall:
closer and taller than `obsFar`, on the same bearing. -/
def obsNear : ObstacleData :=
  { feature := ⟨2, Geometry.point ⟨0, 100, 50⟩, []⟩
    info := ⟨true, 50, "Buffer intersects TOFPA surface", ⟨0, 100, 50⟩⟩
    point := ⟨0, 100, 50⟩
    height := 50
    isCritical := true
    shadowStatus := none
    shadowedBy := none }

/-- `obsNear` satisfies all four shadow conditions against `obsFar`. -/
theorem specShadowCond_obsNear_obsFar : specShadowCond takeoffW 5 obsFar obsNear := by
  have hd1 : Point3.distance takeoffW obsNear.point = 100 := by
    show Point3.distance ⟨0, 0, 0⟩ ⟨0, 100, 50⟩ = 100
    rw [distance_same_x]; norm_num
  have hd2 : Point3.distance takeoffW obsFar.point = 200 := by
    show Point3.distance ⟨0, 0, 0⟩ ⟨0, 200, 10⟩ = 200
    rw [distance_same_x]; norm_num
  have ha1 : Point3.azimuth takeoffW obsNear.point = 0 :=
    azimuth_north 0 0 0 100 50 (by norm_num)
  have ha2 : Point3.azimuth takeoffW obsFar.point = 0 :=
    azimuth_north 0 0 0 200 10 (by norm_num)
  refine ⟨by decide, ?_, ?_, ?_, ?_⟩
  · rw [hd1, hd2]; norm_num
  · show (10 : ℝ) < 50; norm_num
  · rw [ha1, ha2]; norm_num
  · show TOFPA.check_elevation_shadow takeoffW obsFar.point 10 obsNear.point 50
    unfold TOFPA.check_elevation_shadow
    rw [hd1, hd2]
    rw [if_neg (by norm_num)]
    have harc : Real.arctan ((10 - takeoffW.z) / 200) < Real.arctan ((50 - takeoffW.z) / 100) := by
      apply Real.arctan_strictMono
      show ((10 : ℝ) - 0) / 200 < ((50 : ℝ) - 0) / 100
      norm_num
    exact (div_lt_div_iff_of_pos_right Real.pi_pos).mpr
      ((mul_lt_mul_right (by norm_num : (0 : ℝ) < 180)).mpr harc)

/-- Concrete evaluation: `obsFar` is shadowed, and the designated shadower
is `obsNear`. -/
theorem shadow_eval :
    TOFPA.is_obstacle_shadowed obsFar [obsFar, obsNear] takeoffW 5 = some obsNear := by
  rw [is_obstacle_shadowed_cons, if_neg (fun hc => hc.1 rfl),
    is_obstacle_shadowed_cons, if_pos specShadowCond_obsNear_obsFar]

/-- The obstacle-height resolution rule as claim C6 words it:
`max(attribute_value, min_height)` when a height field is set and the
feature's attribute is numeric (int or float), `min_height` otherwise. -/
noncomputable def specResolvedHeight (f : Feature) (height_field : Option String)
    (min_height : ℝ) : ℝ :=
  match height_field with
  | some hf =>
    match f.attribute hf with
    | AttrValue.intV n => max (n : ℝ) min_height
    | AttrValue.doubleV v => max v min_height
    | _ => min_height
  | none => min_height

/-!  Claim theorems.  -/

/-- C1: the takeoff reference point used by the shadow analysis should be
the midpoint of the DER near edge — ring vertices 3 (`pt_01DL`) and 4
(`pt_01DR`).  The extracted `ObstacleAnalyzer` returns exactly that, but
the in-plugin `TOFPA._get_takeoff_reference_point` wired into
`_perform_shadow_analysis` averages ring vertices `[0]` and `[-2]`
(`pt_03DR` and `pt_02DR`): on the spec's concrete surface it returns
`(-900, 8240, 188.88)` instead of the near-edge midpoint `(0, 0, 90)` —
the code bug documented as BUG-04 in src/core/obstacles.py. -/
theorem tofpa_c1_takeoff_reference_point_bug :
    TOFPA.create_tofpa_surface 180 1800 0 100 90 0 scenarioRunway ⟨0, 0, 0⟩ =
      some scenarioSurface ∧
    ObstacleAnalyzer.get_takeoff_reference_point [Geometry.polygon scenarioSurface.ring] =
      some (midpoint3 scenarioSurface.pt01DL scenarioSurface.pt01DR) ∧
    midpoint3 scenarioSurface.pt01DL scenarioSurface.pt01DR = ⟨0, 0, 90⟩ ∧
    TOFPA.get_takeoff_reference_point [Geometry.polygon scenarioSurface.ring] =
      some ⟨-900, 8240, 188.88⟩ ∧
    TOFPA.get_takeoff_reference_point [Geometry.polygon scenarioSurface.ring] ≠
      some (midpoint3 scenarioSurface.pt01DL scenarioSurface.pt01DR) := by
  refine ⟨scenario_surface_eq, ?_, ?_, ?_, ?_⟩
  · simp only [ObstacleAnalyzer.get_takeoff_reference_point, scenarioSurface, midpoint3]
    norm_num
  · simp only [scenarioSurface, midpoint3]
    norm_num [Point3.mk.injEq]
  · simp only [TOFPA.get_takeoff_reference_point, scenarioSurface]
    norm_num [Point3.mk.injEq]
  · simp only [TOFPA.get_takeoff_reference_point, ObstacleAnalyzer.get_takeoff_reference_point,
      scenarioSurface, midpoint3]
    norm_num [Point3.mk.injEq]

/-- C2: a target is marked SHADOWED iff some other record (different
feature id) is strictly closer, strictly taller, within the wrapped angular
tolerance `min(|a-b|, 360-|a-b|)`, and has a strictly greater elevation
angle; the designated shadower is the first qualifying record in input
order. -/
theorem tofpa_c2_shadow_iff_first_match (tk : Point3) (tol : ℝ) (t : ObstacleData)
    (obs : List ObstacleData) :
    ((TOFPA.is_obstacle_shadowed t obs tk tol).isSome ↔
      ∃ o ∈ obs, specShadowCond tk tol t o) ∧
    (∀ o, TOFPA.is_obstacle_shadowed t obs tk tol = some o →
      specShadowCond tk tol t o ∧
        ∃ l1 l2, obs = l1 ++ o :: l2 ∧ ∀ u ∈ l1, ¬ specShadowCond tk tol t u) :=
  is_obstacle_shadowed_spec tk tol t obs

/-- Witness for C2: on the two-record example, the designated shadower
`obsNear` satisfies the claim-side condition and is the first qualifying
record. -/
theorem tofpa_c2_witness :
    specShadowCond takeoffW 5 obsFar obsNear ∧
      ∃ l1 l2, [obsFar, obsNear] = l1 ++ obsNear :: l2 ∧
        ∀ u ∈ l1, ¬ specShadowCond takeoffW 5 obsFar u :=
  (tofpa_c2_shadow_iff_first_match takeoffW 5 obsFar [obsFar, obsNear]).2 obsNear shadow_eval

/-- C3 (spec-modelled): the parameter validator is a pure function
returning a violation-message list, and any parameter record with
`width_tofpa <= 0` yields a non-empty list and a blocked (gated)
calculation. -/
theorem tofpa_c3_width_validation (p : TofpaParams) (hw : p.width_tofpa ≤ 0) :
    validate_parameters p ≠ [] ∧
      ∀ (runway : List Point3) (thr : Point3),
        gated_create_tofpa_surface p runway thr = none := by
  have hmem : "width_tofpa must be greater than 0" ∈ validate_parameters p := by
    unfold validate_parameters
    rw [if_pos hw]
    simp
  have hne : validate_parameters p ≠ [] := by
    intro hnil
    rw [hnil] at hmem
    exact List.not_mem_nil _ hmem
  refine ⟨hne, fun runway thr => ?_⟩
  unfold gated_create_tofpa_surface
  rw [if_neg hne]

/-- Witness for C3: a record with `width_tofpa = 0` is rejected and the
gated surface build returns nothing. -/
theorem tofpa_c3_witness :
    validate_parameters ⟨0, 1800, 0, 100, 90, 0, some "runway", some "threshold"⟩ ≠ [] ∧
      gated_create_tofpa_surface ⟨0, 1800, 0, 100, 90, 0, some "runway", some "threshold"⟩
        scenarioRunway ⟨0, 0, 0⟩ = none := by
  have h := tofpa_c3_width_validation
    ⟨0, 1800, 0, 100, 90, 0, some "runway", some "threshold"⟩ (by norm_num)
  exact ⟨h.1, h.2 scenarioRunway ⟨0, 0, 0⟩⟩

/-- Planar distance from a point to its projection, after the projection's
elevation is overwritten (as the surface builder does with `setZ`). -/
theorem distance_project_setz (p : Point3) (d θ zNew : ℝ) :
    Point3.distance p ⟨(p.project d θ).x, (p.project d θ).y, zNew⟩ = |d| := by
  have h : Point3.distance p ⟨(p.project d θ).x, (p.project d θ).y, zNew⟩ =
      Point3.distance p (p.project d θ) := rfl
  rw [h, distance_project]

/-- C4: for every surface actually built, the planar distance from the
start point `pt_01D` to the full-divergence point `pt_02D` is
`(max_width_tofpa/2 - width_tofpa/2) / 0.125` whenever
`width_tofpa < max_width_tofpa`, and 0 when the widths are equal (the
degenerate rectangle case; no division-by-zero failure). -/
theorem tofpa_c4_divergence_distance (w mw cwy z0 ze : ℝ) (s : ℤ)
    (runway : List Point3) (thr : Point3) (r : SurfaceResult)
    (h : TOFPA.create_tofpa_surface w mw cwy z0 ze s runway thr = some r) :
    (w < mw → Point3.distance r.pt01D r.pt02D = (mw / 2 - w / 2) / 0.125) ∧
    (w = mw → Point3.distance r.pt01D r.pt02D = 0) := by
  match runway with
  | [] => exact absurd h (by simp [TOFPA.create_tofpa_surface])
  | [_] => exact absurd h (by simp [TOFPA.create_tofpa_surface])
  | p0 :: p1 :: rest =>
    simp only [TOFPA.create_tofpa_surface, Option.some.injEq] at h
    subst h
    constructor
    · intro hlt
      rw [distance_project_setz, abs_of_pos (by norm_num; linarith)]
    · intro heq
      rw [distance_project_setz, heq]
      norm_num

/-- Witness for C4: on the spec's concrete scenario (`width 180 < max width
1800`) the divergence distance evaluates to `(1800/2 - 180/2)/0.125`. -/
theorem tofpa_c4_witness :
    (180 : ℝ) < 1800 ∧
      Point3.distance scenarioSurface.pt01D scenarioSurface.pt02D =
        ((1800 : ℝ) / 2 - 180 / 2) / 0.125 :=
  ⟨by norm_num,
    (tofpa_c4_divergence_distance 180 1800 0 100 90 0 scenarioRunway ⟨0, 0, 0⟩
      scenarioSurface scenario_surface_eq).1 (by norm_num)⟩

/-- C5: for every surface actually built, `pt_01D`'s elevation is forced to
`ze`, `pt_02D`'s is `ze + d_div * 0.012` and the 10000 m end point's is
`ze + 10000 * 0.012`; on the spec's concrete scenario the azimuth is 0° and
the computed points are `pt_start = (0,0,90)`, `pt_mid = (0,6480,167.76)`
and end point `(0,10000,210)`. -/
theorem tofpa_c5_climb_gradient :
    (∀ (w mw cwy z0 ze : ℝ) (s : ℤ) (runway : List Point3) (thr : Point3)
       (r : SurfaceResult),
      TOFPA.create_tofpa_surface w mw cwy z0 ze s runway thr = some r →
      r.pt01D.z = ze ∧
      r.pt02D.z = ze + ((mw / 2 - w / 2) / 0.125) * 0.012 ∧
      r.pt03D.z = ze + 10000 * 0.012) ∧
    (TOFPA.create_tofpa_surface 180 1800 0 100 90 0 scenarioRunway ⟨0, 0, 0⟩ =
        some scenarioSurface ∧
      scenarioSurface.azimuth = 0 ∧
      scenarioSurface.pt01D = ⟨0, 0, 90⟩ ∧
      scenarioSurface.pt02D = ⟨0, 6480, 167.76⟩ ∧
      scenarioSurface.pt03D = ⟨0, 10000, 210⟩) := by
  constructor
  · intro w mw cwy z0 ze s runway thr r h
    match runway with
    | [] => exact absurd h (by simp [TOFPA.create_tofpa_surface])
    | [_] => exact absurd h (by simp [TOFPA.create_tofpa_surface])
    | p0 :: p1 :: rest =>
      simp only [TOFPA.create_tofpa_surface, Option.some.injEq] at h
      subst h
      exact ⟨rfl, rfl, rfl⟩
  · exact ⟨scenario_surface_eq, rfl, rfl, rfl, rfl⟩

/-- Witness for C5: the general elevation facts applied to the spec's
concrete scenario (`ze = 90`). -/
theorem tofpa_c5_witness :
    scenarioSurface.pt01D.z = 90 ∧
      scenarioSurface.pt02D.z = 90 + ((1800 / 2 - 180 / 2) / 0.125) * 0.012 ∧
      scenarioSurface.pt03D.z = 90 + 10000 * 0.012 :=
  tofpa_c5_climb_gradient.1 180 1800 0 100 90 0 scenarioRunway ⟨0, 0, 0⟩
    scenarioSurface scenario_surface_eq

/-- C6: for every feature with non-empty geometry, the single-obstacle
analysis succeeds and resolves the obstacle height exactly as the claim
states: `max(attribute_value, min_height)` when the height field is set and
the attribute is numeric, `min_height` otherwise; in particular a feature
with no height attribute and `min_height = 5` resolves to exactly 5. -/
theorem tofpa_c6_height_resolution :
    (∀ (centroid : List Point3 → Point3)
       (bufferIntersects : ℝ → ℝ → ℝ → Geometry → Bool)
       (f : Feature) (hf : Option String) (bd mh : ℝ) (surface : List Geometry),
      f.geometry ≠ Geometry.empty →
      ∃ res, TOFPA.analyze_single_obstacle centroid bufferIntersects f hf bd mh
          surface = Except.ok res ∧
        res.info.height = specResolvedHeight f hf mh) ∧
    (∀ (centroid : List Point3 → Point3)
       (bufferIntersects : ℝ → ℝ → ℝ → Geometry → Bool)
       (fid : ℤ) (p : Point3) (hf : Option String) (bd : ℝ)
       (surface : List Geometry),
      ∃ res, TOFPA.analyze_single_obstacle centroid bufferIntersects
          ⟨fid, Geometry.point p, []⟩ hf bd 5 surface = Except.ok res ∧
        res.info.height = 5) := by
  constructor
  · intro centroid bufferIntersects f hf bd mh surface h
    obtain ⟨fid, geom, attrs⟩ := f
    cases geom with
    | empty => exact absurd rfl h
    | point p =>
      refine ⟨_, rfl, ?_⟩
      cases hf with
      | none => rfl
      | some s =>
        cases hv : Feature.attribute ⟨fid, Geometry.point p, attrs⟩ s <;>
          simp [TOFPA.analyze_single_obstacle, specResolvedHeight, hv]
    | polygon ring =>
      refine ⟨_, rfl, ?_⟩
      cases hf with
      | none => rfl
      | some s =>
        cases hv : Feature.attribute ⟨fid, Geometry.polygon ring, attrs⟩ s <;>
          simp [TOFPA.analyze_single_obstacle, specResolvedHeight, hv]
  · intro centroid bufferIntersects fid p hf bd surface
    refine ⟨_, rfl, ?_⟩
    cases hf with
    | none => rfl
    | some s => rfl

/-- Witness for C6: a point feature with `min_height = 5` and no height
attribute resolves to height exactly 5 (equal to the claim-side rule). -/
theorem tofpa_c6_witness :
    ∃ res, TOFPA.analyze_single_obstacle (fun _ => ⟨0, 0, 0⟩)
        (fun _ _ _ _ => false) ⟨7, Geometry.point ⟨1, 2, 0⟩, []⟩
        (some "height") 10 5 [] = Except.ok res ∧
      res.info.height =
        specResolvedHeight ⟨7, Geometry.point ⟨1, 2, 0⟩, []⟩ (some "height") 5 :=
  tofpa_c6_height_resolution.1 (fun _ => ⟨0, 0, 0⟩) (fun _ _ _ _ => false)
    ⟨7, Geometry.point ⟨1, 2, 0⟩, []⟩ (some "height") 10 5 [] (by simp)

/-- C7: the single-obstacle analysis fails exactly on missing/empty
geometry, and the batch loop skips such a feature, leaving every output of
the batch (records, counts and layer rows) identical to a run without it. -/
theorem tofpa_c7_partial_failure :
    (∀ (centroid : List Point3 → Point3)
       (bufferIntersects : ℝ → ℝ → ℝ → Geometry → Bool)
       (f : Feature) (hf : Option String) (bd mh : ℝ) (surface : List Geometry),
      (∃ e, TOFPA.analyze_single_obstacle centroid bufferIntersects f hf bd mh
          surface = Except.error e) ↔ f.geometry = Geometry.empty) ∧
    (∀ (centroid : List Point3 → Point3)
       (bufferIntersects : ℝ → ℝ → ℝ → Geometry → Bool)
       (hf : Option String) (bd mh : ℝ) (surface : List Geometry)
       (xs ys : List Feature) (bad : Feature),
      bad.geometry = Geometry.empty →
      TOFPA.process_survey_obstacles centroid bufferIntersects (xs ++ bad :: ys)
          hf bd mh surface =
        TOFPA.process_survey_obstacles centroid bufferIntersects (xs ++ ys)
          hf bd mh surface) := by
  constructor
  · intro centroid bufferIntersects f hf bd mh surface
    obtain ⟨fid, geom, attrs⟩ := f
    cases geom <;> simp [TOFPA.analyze_single_obstacle]
  · intro centroid bufferIntersects hf bd mh surface xs ys bad hbad
    induction xs with
    | nil =>
      obtain ⟨fid, geom, attrs⟩ := bad
      obtain rfl : geom = Geometry.empty := hbad
      simp only [List.nil_append]
      rw [TOFPA.process_survey_obstacles]
      rfl
    | cons x xs ih =>
      simp only [List.cons_append]
      rw [TOFPA.process_survey_obstacles, TOFPA.process_survey_obstacles, ih]

/-- Witness for C7: a batch containing one empty-geometry feature produces
exactly the outputs of the batch without it. -/
theorem tofpa_c7_witness :
    TOFPA.process_survey_obstacles (fun _ => ⟨0, 0, 0⟩) (fun _ _ _ _ => false)
        [⟨3, Geometry.point ⟨5, 5, 0⟩, []⟩, ⟨4, Geometry.empty, []⟩] none 10 5 [] =
      TOFPA.process_survey_obstacles (fun _ => ⟨0, 0, 0⟩) (fun _ _ _ _ => false)
        [⟨3, Geometry.point ⟨5, 5, 0⟩, []⟩] none 10 5 [] :=
  tofpa_c7_partial_failure.2 (fun _ => ⟨0, 0, 0⟩) (fun _ _ _ _ => false) none 10 5 []
    [⟨3, Geometry.point ⟨5, 5, 0⟩, []⟩] [] ⟨4, Geometry.empty, []⟩ rfl

/-- C8: when no takeoff reference point can be derived from the surface
layer, the shadow analysis does not fail: it returns an empty shadowed list
and every input record — critical or not — in the visible list, with no
record marked SHADOWED. -/
theorem tofpa_c8_degenerate_analysis (data : List ObstacleData)
    (layer : List Geometry) (tol : ℝ)
    (hnone : TOFPA.get_takeoff_reference_point layer = none)
    (hfresh : ∀ r ∈ data, r.shadowStatus = none) :
    TOFPA.perform_shadow_analysis data layer tol =
      ⟨[], data, none⟩ ∧
    ∀ r ∈ (TOFPA.perform_shadow_analysis data layer tol).visibleObstacles,
      r.shadowStatus ≠ some "SHADOWED" := by
  have heq : TOFPA.perform_shadow_analysis data layer tol = ⟨[], data, none⟩ := by
    unfold TOFPA.perform_shadow_analysis
    rw [hnone]
  refine ⟨heq, fun r hr => ?_⟩
  rw [heq] at hr
  rw [hfresh r hr]
  simp

/-- Witness for C8: an empty surface layer yields no reference point, so a
one-record data set passes through untouched. -/
theorem tofpa_c8_witness :
    TOFPA.perform_shadow_analysis [obsFar] [] 5 = ⟨[], [obsFar], none⟩ ∧
      ∀ r ∈ (TOFPA.perform_shadow_analysis [obsFar] [] 5).visibleObstacles,
        r.shadowStatus ≠ some "SHADOWED" :=
  tofpa_c8_degenerate_analysis [obsFar] [] 5 rfl
    (by intro r hr; rw [List.mem_singleton.mp hr]; rfl)

/-- C9: shadowing is asymmetric — if the scan designates B as A's shadower,
then the same scan for B never designates A, because the designated
shadower is always strictly closer to the takeoff point. -/
theorem tofpa_c9_shadow_asymmetry (tk : Point3) (tol : ℝ) (A B : ObstacleData)
    (obs : List ObstacleData)
    (h : TOFPA.is_obstacle_shadowed A obs tk tol = some B) :
    TOFPA.is_obstacle_shadowed B obs tk tol ≠ some A := by
  intro hBA
  exact lt_asymm (is_obstacle_shadowed_closer tk tol A B obs h)
    (is_obstacle_shadowed_closer tk tol B A obs hBA)

/-- Witness for C9: on the two-record example `obsNear` shadows `obsFar`,
and the reverse direction is impossible. -/
theorem tofpa_c9_witness :
    TOFPA.is_obstacle_shadowed obsFar [obsFar, obsNear] takeoffW 5 = some obsNear ∧
      TOFPA.is_obstacle_shadowed obsNear [obsFar, obsNear] takeoffW 5 ≠ some obsFar :=
  ⟨shadow_eval,
    tofpa_c9_shadow_asymmetry takeoffW 5 obsFar obsNear [obsFar, obsNear] shadow_eval⟩

/-- C10 counterexample: on the spec's concrete surface ring, the legacy
in-plugin pipeline and the extracted pipeline derive different takeoff
reference points, so the two shadow-analysis implementations are not
equivalent. -/
theorem tofpa_c10_counterexample :
    TOFPA.get_takeoff_reference_point [Geometry.polygon scenarioSurface.ring] ≠
      ObstacleAnalyzer.get_takeoff_reference_point
        [Geometry.polygon scenarioSurface.ring] := by
  simp only [TOFPA.get_takeoff_reference_point,
    ObstacleAnalyzer.get_takeoff_reference_point, scenarioSurface]
  norm_num [Point3.mk.injEq]

/-- C10 (amended): the two pipelines agree on the shadowed/visible
attribute rows exactly when the extracted pipeline is called with
`buffer_distance = 10.0` (the legacy code hardcodes `buffer_m = 10.0`), and
on any ring built by `create_tofpa_surface`
(`[pt_03DR, pt_03DL, pt_02DL, pt_01DL, pt_01DR, pt_02DR]` plus closing
vertex) their takeoff reference points are the midpoints of different
edges: the legacy pipeline averages ring vertices `[0]` and `[-2]`
(`pt_03DR`, `pt_02DR`) while the extracted pipeline averages vertices `[3]`
and `[4]` (`pt_01DL`, `pt_01DR`). -/
theorem tofpa_c10_pipelines_relation :
    (∀ res : ShadowResults,
      TOFPA.apply_shadow_results res = ObstacleAnalyzer.apply_shadow_results res 10.0) ∧
    (∀ p3DR p3DL p2DL p1DL p1DR p2DR : Point3,
      TOFPA.get_takeoff_reference_point
          [Geometry.polygon [p3DR, p3DL, p2DL, p1DL, p1DR, p2DR, p3DR]] =
        some (midpoint3 p3DR p2DR) ∧
      ObstacleAnalyzer.get_takeoff_reference_point
          [Geometry.polygon [p3DR, p3DL, p2DL, p1DL, p1DR, p2DR, p3DR]] =
        some (midpoint3 p1DL p1DR)) := by
  constructor
  · intro res
    rfl
  · intro p3DR p3DL p2DL p1DL p1DR p2DR
    constructor
    · simp [TOFPA.get_takeoff_reference_point, midpoint3]
    · simp [ObstacleAnalyzer.get_takeoff_reference_point, midpoint3]
